import Mathlib

/-!
Shallow embedding of the "Picture Book Forest" exploration page (a single
React page module) and proofs about its core logic.

The embedding covers:
* the deterministic noise source `seededRandom`,
* the rotated-rectangle containment test `isPointInPath`,
* the block tree generator `generateTreeBlock`,
* the border tree generator `generateBorderTrees`,
* the avatar movement tick `updatePosition` with its world-bounds clamps,
* the sign response store (`submitResponse`) and the completion check run
  by the completion button (`completionCheck` and its local lists
  `missingResponses`, `gradingResults`, `missingTaskNames`, `allResponses`).

Modelling conventions:
* JavaScript numbers are modelled as real numbers (`ℝ`) in the geometric
  code (which uses `Math.sin`/`Math.cos`) and as rationals (`ℚ`) in the
  purely arithmetic movement code; integer counters are `ℕ`.
* JavaScript strings are modelled as lists of characters (`Str`), and
  `String.prototype.trim` as `jsTrim`.
* `Math.floor` is `Int.floor`; `Math.round v` is `⌊v + 1/2⌋` (which matches
  JavaScript's round-half-up behaviour, also for negative inputs).
* The `for` loops of the generators walk arithmetic progressions; they are
  embedded as maps over `List.range n` where `n` is the exact number of
  iterations of the loop (justified in a comment at each definition).
-/

namespace Forest

/-! ### Strings: character lists and JavaScript `trim` -/

/-- JavaScript strings, modelled as lists of characters. -/
abbrev Str := List Char

/-- The whitespace test used by JavaScript's `String.prototype.trim`:
ASCII whitespace (space, tab, LF, VT, FF, CR) together with NBSP and the
BOM/zero-width no-break space. -/
def jsWhitespace (c : Char) : Bool :=
  c = ' ' || c = '\t' || c = '\n' || c = Char.ofNat 11 || c = Char.ofNat 12 ||
  c = '\r' || c = Char.ofNat 160 || c = Char.ofNat 65279

/-- `String.prototype.trim`: drop leading and trailing whitespace.
`List.rdropWhile p l` removes the trailing run of `p`-elements. -/
def jsTrim (s : Str) : Str :=
  (s.dropWhile jsWhitespace).rdropWhile jsWhitespace

lemma rdropWhile_idem (p : Char → Bool) (l : List Char) :
    (l.rdropWhile p).rdropWhile p = l.rdropWhile p := by
  simp [List.rdropWhile, List.dropWhile_idempotent]

lemma dropWhile_cons_of_neg {p : Char → Bool} {a : Char} {l : List Char}
    (h : p a = false) : (a :: l).dropWhile p = a :: l := by
  simp [List.dropWhile_cons, h]

/-- If a list has no leading `p`-run, then neither does the list obtained by
removing its trailing `p`-run. -/
lemma dropWhile_rdropWhile {p : Char → Bool} {l : List Char}
    (h : l.dropWhile p = l) : (l.rdropWhile p).dropWhile p = l.rdropWhile p := by
  rcases heq : l.rdropWhile p with _ | ⟨a, t⟩
  · rfl
  · -- `l.rdropWhile p` is a prefix of `l`, so `l = a :: (t ++ junk)`;
    -- `h` then forces `p a = false`.
    have hpre : l.rdropWhile p <+: l := List.rdropWhile_prefix p l
    rcases hpre with ⟨junk, hl⟩
    rw [heq] at hl
    have hpa : p a = false := by
      by_contra hpa
      have hpa' : p a = true := by
        cases hx : p a with
        | false => exact absurd hx hpa
        | true => rfl
      have := congrArg List.length h
      rw [← hl] at this
      simp [List.dropWhile_cons, hpa'] at this
      have hlen := (List.dropWhile_sublist (l := t ++ junk) p).length_le
      have happ : (t ++ junk).length = t.length + junk.length :=
        List.length_append t junk
      omega
    exact dropWhile_cons_of_neg hpa

/-- `trim` is idempotent. -/
theorem jsTrim_idem (s : Str) : jsTrim (jsTrim s) = jsTrim s := by
  unfold jsTrim
  rw [dropWhile_rdropWhile (List.dropWhile_idempotent jsWhitespace s),
    rdropWhile_idem]

/-! ### Data model: signs and responses -/

/-- A sign (`TextBox` in the source): multi-line text, font size, anchor,
optional click info, optional grading function, optional input flag and
optional title.  Grading functions are pure `string -> string` maps. -/
structure TextBox where
  text : Str
  fontSize : ℚ
  top : ℚ
  left : ℚ
  additionalInfo : Option Str := none
  grading : Option (Str → Str) := none
  hasInput : Option Bool := none
  title : Option Str := none

/-- A recorded sign response: `{ index, response, timestamp }`. -/
structure SignResponse where
  index : ℕ
  response : Str
  timestamp : ℕ
deriving DecidableEq

/-- The Submit button handler: it trims the current input and appends
`{ index, response: trimmedResponse, timestamp }` to the response list
(the dog-rename side effect for index 1 does not touch the list). -/
def submitResponse (prev : List SignResponse) (idx : ℕ) (current : Str)
    (ts : ℕ) : List SignResponse :=
  prev ++ [⟨idx, jsTrim current, ts⟩]

/-- Response lists reachable from the initial empty store by repeated
submissions — exactly the values the `getSignResponses` snapshot can take. -/
inductive ReachableStore : List SignResponse → Prop
  | init : ReachableStore []
  | submit (prev : List SignResponse) (idx : ℕ) (current : Str) (ts : ℕ) :
      ReachableStore prev → ReachableStore (submitResponse prev idx current ts)

/-! ### The completion check (completion button `onClick`) -/

/-- Indices of the two agent-related tasks; either one completes both. -/
def agentTaskIndices : List ℕ := [6, 7]

/-- Index of the Beans rename sign; it never counts towards completion. -/
def beansRenameIndex : ℕ := 1

/-- `textBoxes.map((tb, idx) => ({textBox, index})).filter(tb.grading)`:
the gradable signs, paired with their indices. -/
def textBoxesWithGrading (tbs : List TextBox) : List (ℕ × TextBox) :=
  tbs.enum.filter (fun p => p.2.grading.isSome)

/-- `signResponses.find(r => r.index === index)`: the first recorded
response for a sign index. -/
def responseFor (rs : List SignResponse) (i : ℕ) : Option SignResponse :=
  rs.find? (fun r => r.index == i)

/-- `response && response.response.trim().length > 0`: a found record with a
non-empty trimmed response.  (The main loop's test
`!response || !response.response.trim()` is the negation of this.) -/
def respOk (o : Option SignResponse) : Bool :=
  match o with
  | some r => decide (0 < (jsTrim r.response).length)
  | none => false

/-- `agentTaskIndices.some(...)`: at least one agent task has a non-empty
trimmed response. -/
def agentTaskCompleted (rs : List SignResponse) : Bool :=
  agentTaskIndices.any (fun i => respOk (responseFor rs i))

/-- The `missingResponses` accumulator of the completion handler's
`forEach` over the gradable signs: skip the Beans index; for an agent index
record it as missing unless either agent task is completed; otherwise record
it as missing when it has no non-empty trimmed response. -/
def missingResponses (tbs : List TextBox) (rs : List SignResponse) : List ℕ :=
  (textBoxesWithGrading tbs).filterMap (fun p =>
    if p.1 = beansRenameIndex then none
    else if p.1 ∈ agentTaskIndices then
      (if agentTaskCompleted rs then none else some p.1)
    else if respOk (responseFor rs p.1) then none else some p.1)

/-- The `gradingResults` accumulator of the same `forEach`: for a gradable
sign that is neither the Beans index nor an agent index and that has a
non-empty trimmed response, the sign's own grading function is applied to
the stored response text. -/
def gradingResults (tbs : List TextBox) (rs : List SignResponse) :
    List (ℕ × Str) :=
  (textBoxesWithGrading tbs).filterMap (fun p =>
    if p.1 = beansRenameIndex then none
    else if p.1 ∈ agentTaskIndices then none
    else
      match responseFor rs p.1 with
      | none => none
      | some r =>
        if 0 < (jsTrim r.response).length then
          p.2.grading.map (fun g => (p.1, g r.response))
        else none)

/-- The JavaScript `a || b` fallback on strings: `b` when `a` is absent or
empty (the empty string is falsy). -/
def jsOr (o : Option Str) (d : Str) : Str :=
  match o with
  | some s => if s.isEmpty then d else s
  | none => d

/-- `textBox.text.split('\n')[0]`: the first line of a sign's text. -/
def firstLine (s : Str) : Str := s.takeWhile (fun c => c ≠ '\n')

/-- `textBox.title || textBox.text.split('\n')[0]`: the task name used in
completion feedback. -/
def taskNameOf (tb : TextBox) : Str := jsOr tb.title (firstLine tb.text)

def defaultAgentName1 : Str := ("Find an Agent").data

def defaultAgentName2 : Str := ("Already have an agent").data

def orSeparator : Str := (" or ").data

/-- The combined "`task1Name` or `task2Name`" entry pushed when an agent
task is missing, built from the titles of the boxes at indices 6 and 7 with
the source's fallback strings. -/
def agentPairName (tbs : List TextBox) : Str :=
  jsOr ((tbs[6]?).bind TextBox.title) defaultAgentName1 ++ orSeparator ++
    jsOr ((tbs[7]?).bind TextBox.title) defaultAgentName2

/-- The list of missing task names reported on failure: one combined entry
if any agent index is missing, then, for each other missing index, the
task's title or the first line of its text. -/
def missingTaskNames (tbs : List TextBox) (rs : List SignResponse) :
    List Str :=
  let missing := missingResponses tbs rs
  (if 0 < (missing.filter (fun i => decide (i ∈ agentTaskIndices))).length
   then [agentPairName tbs] else []) ++
  missing.filterMap (fun i =>
    if i ∈ agentTaskIndices then none
    else (tbs[i]?).map taskNameOf)

/-- The `allResponses` list of the success branch: for every gradable sign
other than the Beans index (agent indices included, sharing the same
condition and payload in the source), the task name and the stored response
when the trimmed response is non-empty. -/
def allResponses (tbs : List TextBox) (rs : List SignResponse) :
    List (Str × Str) :=
  (textBoxesWithGrading tbs).filterMap (fun p =>
    if p.1 = beansRenameIndex then none
    else if p.1 ∈ agentTaskIndices then
      match responseFor rs p.1 with
      | some r =>
        if 0 < (jsTrim r.response).length then some (taskNameOf p.2, r.response)
        else none
      | none => none
    else
      match responseFor rs p.1 with
      | some r =>
        if 0 < (jsTrim r.response).length then some (taskNameOf p.2, r.response)
        else none
      | none => none)

/-- `toString(n).padStart(2, '0')`. -/
def pad2 (n : ℕ) : Str :=
  let s := (Nat.repr n).data
  List.replicate (2 - s.length) '0' ++ s

def colonStr : Str := (":").data

/-- `formatTime`: elapsed seconds rendered as `MM:SS`. -/
def formatTime (seconds : ℕ) : Str :=
  pad2 (seconds / 60) ++ colonStr ++ pad2 (seconds % 60)

/-- Outcome of the completion button: either the failure feedback carrying
the missing task names, or the success feedback carrying the formatted
elapsed time and the collected responses (the surrounding congratulation /
admonition text is pure display formatting). -/
inductive CompletionResult where
  | incomplete (missingTaskNames : List Str)
  | complete (timeString : Str) (allResponses : List (Str × Str))
deriving DecidableEq

/-- The completion button's `onClick` logic as a pure function of the sign
list, the recorded responses and the elapsed time. -/
def completionCheck (tbs : List TextBox) (rs : List SignResponse)
    (elapsed : ℕ) : CompletionResult :=
  if 0 < (missingResponses tbs rs).length then
    CompletionResult.incomplete (missingTaskNames tbs rs)
  else
    CompletionResult.complete (formatTime elapsed) (allResponses tbs rs)

/-! ### World constants -/

/-- `WORLD_WIDTH = 4000`. -/
def WORLD_WIDTH : ℕ := 4000

/-- `WORLD_HEIGHT = 4300`. -/
def WORLD_HEIGHT : ℕ := 4300

/-! ### Deterministic noise source -/

/-- `seededRandom(seed)`: the fractional part of `Math.sin(seed) * 10000`,
computed exactly as in the source: `x - Math.floor(x)`. -/
noncomputable def seededRandom (seed : ℝ) : ℝ :=
  Real.sin seed * 10000 - ⌊Real.sin seed * 10000⌋

/-! ### Rotated-rectangle containment test -/

/-- A path: a `length × width` corridor anchored at `(left, top)` and
rotated by `angle` degrees. -/
structure Path where
  length : ℝ
  width : ℝ
  top : ℝ
  left : ℝ
  angle : ℝ

/-- `isPointInPath(x, y, path)`: translate the point by the anchor, rotate
back to axis-aligned local coordinates, and test the closed-interval bounds
`rotatedX >= 0 && rotatedX <= length && |rotatedY| <= width / 2`. -/
noncomputable def isPointInPath (x y : ℝ) (path : Path) : Prop :=
  let angleRad := path.angle * Real.pi / 180
  let c := Real.cos angleRad
  let s := Real.sin angleRad
  let dx := x - path.left
  let dy := y - path.top
  let rotatedX := dx * c + dy * s
  let rotatedY := -dx * s + dy * c
  0 ≤ rotatedX ∧ rotatedX ≤ path.length ∧ |rotatedY| ≤ path.width / 2

/-! ### Rounding to two decimals -/

/-- `Math.round(v * 100) / 100`.  JavaScript's `Math.round(z)` is
`⌊z + 1/2⌋` (round half towards positive infinity, also for negatives). -/
noncomputable def round2 (v : ℝ) : ℝ := (⌊v * 100 + 1 / 2⌋ : ℝ) / 100

/-! ### Block tree generator -/

/-- A tree block: a `width × length` rectangle at `(left, top)` with a
scattering density (trees per 100 world units). -/
structure TreeBlock where
  length : ℝ
  width : ℝ
  density : ℝ
  top : ℝ
  left : ℝ

/-- A decoration point. -/
structure Point where
  x : ℝ
  y : ℝ

/-- `spacing = 100 / block.density`. -/
noncomputable def spacing (block : TreeBlock) : ℝ := 100 / block.density

/-- `blockSeed = left*1000 + top*100 + width + length`. -/
def blockSeed (block : TreeBlock) : ℝ :=
  block.left * 1000 + block.top * 100 + block.width + block.length

/-- Number of iterations of the outer loop
`for (x = left; x < left + width; x += spacing)`: the values taken are
`left + k * spacing` for natural `k` with `k * spacing < width`, i.e. (for
positive spacing) `k < width / spacing`, of which there are exactly
`⌈width / spacing⌉₊`. -/
noncomputable def cols (block : TreeBlock) : ℕ :=
  ⌈block.width / spacing block⌉₊

/-- Number of iterations of the inner loop over `y`, analogously. -/
noncomputable def rows (block : TreeBlock) : ℕ :=
  ⌈block.length / spacing block⌉₊

/-- The candidate tree of grid cell `(kx, ky)` of a block: the nominal grid
position jittered by two seeded-noise offsets (the running `treeIndex` of
the x-major walk is `kx * rows + ky`) and rounded to two decimals. -/
noncomputable def treeCandidate (block : TreeBlock) (kx ky : ℕ) : Point :=
  let s := spacing block
  let i : ℕ := kx * rows block + ky
  let seedX := blockSeed block + (i : ℝ) * 11
  let seedY := blockSeed block + (i : ℝ) * 13 + 1000
  let offsetX := (seededRandom seedX - 0.5) * s * 0.4
  let offsetY := (seededRandom seedY - 0.5) * s * 0.4
  ⟨round2 (block.left + (kx : ℝ) * s + offsetX),
   round2 (block.top + (ky : ℝ) * s + offsetY)⟩

/-- The bounds check applied to the jittered point: within the block's own
rectangle, boundary inclusive. -/
def inBlockBounds (block : TreeBlock) (x y : ℝ) : Prop :=
  block.left ≤ x ∧ x ≤ block.left + block.width ∧
    block.top ≤ y ∧ y ≤ block.top + block.length

section

open Classical

/-- `generateTreeBlock(block, paths)`: walk the grid (columns outer, rows
inner), keep a jittered candidate iff it stays inside the block rectangle
and lies in none of the supplied paths. -/
noncomputable def generateTreeBlock (block : TreeBlock) (paths : List Path) :
    List Point :=
  (List.range (cols block)).flatMap (fun kx =>
    (List.range (rows block)).filterMap (fun ky =>
      let p := treeCandidate block kx ky
      if inBlockBounds block p.x p.y ∧
          ∀ path ∈ paths, ¬ isPointInPath p.x p.y path then
        some p
      else none))

end

/-! ### Border tree generator -/

def TREE_SPACING : ℝ := 250

def BORDER_DEPTH : ℝ := 800

def RANDOM_OFFSET : ℝ := 200

def BOTTOM_RAISE : ℝ := 200

def borderSeed : ℝ := 12345

/-- `rand(range, seed) = (seededRandom(seed) - 0.5) * range`. -/
noncomputable def rand (range seed : ℝ) : ℝ :=
  (seededRandom seed - 0.5) * range

/-- Points per horizontal border row: `x = -250, 0, …` while
`x ≤ WORLD_WIDTH + 250 = 4250`, so `k ≤ 18`: 19 points. -/
def horizCount : ℕ := 19

/-- Points per vertical border row: `y = -250, 0, …` while
`y ≤ WORLD_HEIGHT + 250 = 4550`, so `k ≤ 19`: 20 points. -/
def vertCount : ℕ := 20

/-- Layers: `layer = 0, 125, 250, …` while `layer < BORDER_DEPTH = 800`,
so 7 layers. -/
def layerCount : ℕ := 7

/-- Points emitted per layer: 19 + 19 + 20 + 20. -/
def layerStride : ℕ := 78

/-- The `k`-th top-border point of a layer, where `c` is the value of the
global `treeCounter` when the row starts (the counter increments once per
point, so this point uses counter `c + k`). -/
noncomputable def topPoint (layer : ℝ) (c k : ℕ) : Point :=
  ⟨round2 ((-TREE_SPACING + (k : ℝ) * TREE_SPACING) +
      rand RANDOM_OFFSET (borderSeed + ((c + k : ℕ) : ℝ) * 17)),
   round2 (-layer +
      rand (RANDOM_OFFSET / 2) (borderSeed + ((c + k : ℕ) : ℝ) * 19 + 5000))⟩

/-- The `k`-th bottom-border point of a layer: note the
`WORLD_HEIGHT + layer - BOTTOM_RAISE` nominal `y`. -/
noncomputable def bottomPoint (layer : ℝ) (c k : ℕ) : Point :=
  ⟨round2 ((-TREE_SPACING + (k : ℝ) * TREE_SPACING) +
      rand RANDOM_OFFSET (borderSeed + ((c + k : ℕ) : ℝ) * 17)),
   round2 ((WORLD_HEIGHT : ℝ) + layer - BOTTOM_RAISE +
      rand (RANDOM_OFFSET / 2) (borderSeed + ((c + k : ℕ) : ℝ) * 19 + 5000))⟩

/-- The `k`-th left-border point of a layer. -/
noncomputable def leftPoint (layer : ℝ) (c k : ℕ) : Point :=
  ⟨round2 (-layer +
      rand (RANDOM_OFFSET / 2) (borderSeed + ((c + k : ℕ) : ℝ) * 17)),
   round2 ((-TREE_SPACING + (k : ℝ) * TREE_SPACING) +
      rand RANDOM_OFFSET (borderSeed + ((c + k : ℕ) : ℝ) * 19 + 5000))⟩

/-- The `k`-th right-border point of a layer. -/
noncomputable def rightPoint (layer : ℝ) (c k : ℕ) : Point :=
  ⟨round2 ((WORLD_WIDTH : ℝ) + layer +
      rand (RANDOM_OFFSET / 2) (borderSeed + ((c + k : ℕ) : ℝ) * 17)),
   round2 ((-TREE_SPACING + (k : ℝ) * TREE_SPACING) +
      rand RANDOM_OFFSET (borderSeed + ((c + k : ℕ) : ℝ) * 19 + 5000))⟩

/-- One iteration of the layer loop: the four border rows in source order
(top, bottom, left, right).  The `i`-th layer has `layer = 125 * i`
(written as `TREE_SPACING / 2 * i`), and the global `treeCounter` enters
the layer holding `layerStride * i` and advances once per point. -/
noncomputable def layerTrees (i : ℕ) : List Point :=
  (List.range horizCount).map
    (topPoint (TREE_SPACING / 2 * (i : ℝ)) (layerStride * i)) ++
  ((List.range horizCount).map
    (bottomPoint (TREE_SPACING / 2 * (i : ℝ)) (layerStride * i + horizCount)) ++
  ((List.range vertCount).map
    (leftPoint (TREE_SPACING / 2 * (i : ℝ)) (layerStride * i + 2 * horizCount)) ++
  (List.range vertCount).map
    (rightPoint (TREE_SPACING / 2 * (i : ℝ))
      (layerStride * i + 2 * horizCount + vertCount))))

/-- `generateBorderTrees()`: the fixed frame of decoration around the world,
layer-major then side-major then position-major. -/
noncomputable def generateBorderTrees : List Point :=
  (List.range layerCount).flatMap layerTrees

/-! ### Avatar movement tick -/

/-- The set of currently pressed arrow keys. -/
structure Keys where
  up : Bool
  down : Bool
  left : Bool
  right : Bool

/-- An avatar world position. -/
structure AvatarPos where
  x : ℚ
  y : ℚ
deriving DecidableEq

/-- `SPEED = 8` pixels per frame. -/
def SPEED : ℚ := 8

/-- One tick of the `requestAnimationFrame` movement loop: each pressed
direction moves by `SPEED` and clamps to the world bounds; the `ArrowDown`
(resp. `ArrowRight`) assignment overwrites the `ArrowUp` (resp.
`ArrowLeft`) one and reads the previous position, exactly as the source's
sequence of `if` statements does. -/
def updatePosition (prev : AvatarPos) (keys : Keys) : AvatarPos :=
  let newYUp := if keys.up then max 650 (prev.y - SPEED) else prev.y
  let newY := if keys.down then min ((WORLD_HEIGHT : ℚ) - 200) (prev.y + SPEED)
    else newYUp
  let newXLeft := if keys.left then max 550 (prev.x - SPEED) else prev.x
  let newX := if keys.right then min ((WORLD_WIDTH : ℚ) - 200) (prev.x + SPEED)
    else newXLeft
  ⟨newX, newY⟩

/-! ### Generic helpers -/

/-- A recursively defined "every element satisfies `P`" predicate, used to
state universally quantified list facts without a membership hypothesis. -/
def AllList {α : Type _} (P : α → Prop) : List α → Prop
  | [] => True
  | a :: l => P a ∧ AllList P l

lemma allList_iff {α : Type _} (P : α → Prop) (l : List α) :
    AllList P l ↔ ∀ a ∈ l, P a := by
  induction l with
  | nil => simp [AllList]
  | cons a l ih => simp [AllList, ih]

/-! ### C7: the noise source -/

/-- C7: for every real seed `s`, `seededRandom s` equals the fractional
part of `sin s * 10000` and lies in the half-open interval `[0, 1)`; and it
is a pure function of the seed, so equal seeds give identical results. -/
theorem seededRandom_spec :
    (∀ s : ℝ, seededRandom s = Int.fract (Real.sin s * 10000) ∧
      0 ≤ seededRandom s ∧ seededRandom s < 1) ∧
    (∀ s₁ s₂ : ℝ, s₁ = s₂ → seededRandom s₁ = seededRandom s₂) := by
  refine ⟨fun s => ⟨rfl, ?_, ?_⟩, fun s₁ s₂ h => by rw [h]⟩
  · exact Int.fract_nonneg (Real.sin s * 10000)
  · exact Int.fract_lt_one (Real.sin s * 10000)

/-- Witness for C7: the determinism clause applied at the concrete seed 3. -/
theorem seededRandom_spec_witness : seededRandom 3 = seededRandom 3 :=
  seededRandom_spec.2 3 3 rfl

/-! ### C1: the containment test -/

/-- Modelled from the spec's words: the local `u` coordinate obtained by
translating the point by the path's anchor and rotating by the *negative*
of the path's angle. -/
noncomputable def specLocalU (x y : ℝ) (path : Path) : ℝ :=
  (x - path.left) * Real.cos (-(path.angle * Real.pi / 180)) -
    (y - path.top) * Real.sin (-(path.angle * Real.pi / 180))

/-- Modelled from the spec's words: the local `v` coordinate, as for
`specLocalU`. -/
noncomputable def specLocalV (x y : ℝ) (path : Path) : ℝ :=
  (x - path.left) * Real.sin (-(path.angle * Real.pi / 180)) +
    (y - path.top) * Real.cos (-(path.angle * Real.pi / 180))

/-- The demonstration path of the claim:
`length=100, width=50, top=0, left=0, angle=0`. -/
def cPath : Path := ⟨100, 50, 0, 0, 0⟩

/-- Definitional unfolding of `isPointInPath` with the `let` bindings
substituted. -/
lemma isPointInPath_def (x y : ℝ) (path : Path) :
    isPointInPath x y path ↔
      (0 ≤ (x - path.left) * Real.cos (path.angle * Real.pi / 180) +
            (y - path.top) * Real.sin (path.angle * Real.pi / 180) ∧
        (x - path.left) * Real.cos (path.angle * Real.pi / 180) +
            (y - path.top) * Real.sin (path.angle * Real.pi / 180) ≤
          path.length ∧
        |(-(x - path.left)) * Real.sin (path.angle * Real.pi / 180) +
            (y - path.top) * Real.cos (path.angle * Real.pi / 180)| ≤
          path.width / 2) :=
  Iff.rfl

lemma cPath_eval (x y : ℝ) :
    isPointInPath x y cPath ↔ (0 ≤ x ∧ x ≤ 100 ∧ |y| ≤ 25) := by
  rw [isPointInPath_def]
  have h1 : (cPath.angle * Real.pi / 180) = 0 := by
    show (0 : ℝ) * Real.pi / 180 = 0
    ring
  rw [h1, Real.cos_zero, Real.sin_zero]
  show 0 ≤ (x - 0) * 1 + (y - 0) * 0 ∧
      (x - 0) * 1 + (y - 0) * 0 ≤ (100 : ℝ) ∧
      |(-(x - 0)) * 0 + (y - 0) * 1| ≤ (50 : ℝ) / 2 ↔ _
  constructor
  · rintro ⟨a, b, c⟩
    refine ⟨by linarith, by linarith, ?_⟩
    have : (-(x - 0)) * 0 + (y - 0) * 1 = y := by ring
    rw [this] at c
    linarith [c]
  · rintro ⟨a, b, c⟩
    refine ⟨by linarith, by linarith, ?_⟩
    have : (-(x - 0)) * 0 + (y - 0) * 1 = y := by ring
    rw [this]
    linarith [c]

/-- C1: `isPointInPath` holds iff the spec-level local coordinates `(u, v)`
(point translated by the anchor, then rotated by the negative of the
angle) satisfy the closed-interval bounds `0 ≤ u ≤ length` and
`|v| ≤ width/2`; and the four concrete evaluations of the claim for the
path with `length=100, width=50, top=0, left=0, angle=0`. -/
theorem isPointInPath_spec :
    (∀ (x y : ℝ) (path : Path), isPointInPath x y path ↔
      (0 ≤ specLocalU x y path ∧ specLocalU x y path ≤ path.length ∧
        |specLocalV x y path| ≤ path.width / 2)) ∧
    isPointInPath 50 0 cPath ∧ isPointInPath 100 25 cPath ∧
    ¬ isPointInPath 50 26 cPath ∧ ¬ isPointInPath (-1) 0 cPath := by
  have hu : ∀ (x y : ℝ) (path : Path), specLocalU x y path =
      (x - path.left) * Real.cos (path.angle * Real.pi / 180) +
        (y - path.top) * Real.sin (path.angle * Real.pi / 180) := by
    intro x y path
    rw [specLocalU, Real.cos_neg, Real.sin_neg]
    ring
  have hv : ∀ (x y : ℝ) (path : Path), specLocalV x y path =
      (-(x - path.left)) * Real.sin (path.angle * Real.pi / 180) +
        (y - path.top) * Real.cos (path.angle * Real.pi / 180) := by
    intro x y path
    rw [specLocalV, Real.cos_neg, Real.sin_neg]
    ring
  refine ⟨fun x y path => ?_, ?_, ?_, ?_, ?_⟩
  · rw [isPointInPath_def, hu, hv]
  · exact (cPath_eval 50 0).mpr (by norm_num)
  · exact (cPath_eval 100 25).mpr (by norm_num)
  · intro h
    have := (cPath_eval 50 26).mp h
    have h26 : |(26 : ℝ)| ≤ 25 := this.2.2
    rw [abs_of_nonneg (by norm_num : (0:ℝ) ≤ 26)] at h26
    linarith
  · intro h
    have := (cPath_eval (-1) 0).mp h
    linarith [this.1]

/-! ### C2: the block generator keeps points inside and off the paths -/

/-- C2: for a block of strictly positive density, every generated point
lies inside the block's own rectangle (boundary inclusive) and inside none
of the supplied paths; and when some supplied path covers the whole block
rectangle, the generator returns the empty sequence. -/
theorem generateTreeBlock_spec (block : TreeBlock)
    (paths covered : List Path) (path0 : Path)
    (hd : 0 < block.density) (hmem : path0 ∈ covered)
    (hcov : ∀ x y : ℝ, inBlockBounds block x y → isPointInPath x y path0) :
    AllList (fun p : Point => inBlockBounds block p.x p.y ∧
        AllList (fun path => ¬ isPointInPath p.x p.y path) paths)
      (generateTreeBlock block paths) ∧
    generateTreeBlock block covered = [] := by
  constructor
  · rw [allList_iff]
    intro p hp
    rw [generateTreeBlock, List.mem_flatMap] at hp
    obtain ⟨kx, -, hp⟩ := hp
    rw [List.mem_filterMap] at hp
    obtain ⟨ky, -, hp⟩ := hp
    dsimp only at hp
    split at hp
    · rename_i hkeep
      cases hp
      exact ⟨hkeep.1, (allList_iff _ _).mpr hkeep.2⟩
    · exact absurd hp (by simp)
  · rw [generateTreeBlock, List.flatMap_eq_nil_iff]
    intro kx _
    rw [List.filterMap_eq_nil_iff]
    intro ky _
    dsimp only
    rw [if_neg]
    rintro ⟨hin, hall⟩
    exact hall path0 hmem (hcov _ _ hin)

/-- The concrete block of the witness: a `10 × 10` rectangle at the origin
with density 1. -/
def wBlock : TreeBlock := ⟨10, 10, 1, 0, 0⟩

/-- An unrotated path that covers all of `wBlock`. -/
def wPath : Path := ⟨1000, 1000, 0, -100, 0⟩

lemma wPath_covers : ∀ x y : ℝ, inBlockBounds wBlock x y →
    isPointInPath x y wPath := by
  intro x y h
  obtain ⟨h1, h2, h3, h4⟩ := h
  have hx1 : (0 : ℝ) ≤ x := h1
  have hx2 : x ≤ 0 + 10 := h2
  have hy1 : (0 : ℝ) ≤ y := h3
  have hy2 : y ≤ 0 + 10 := h4
  rw [isPointInPath_def]
  have h0 : (wPath.angle * Real.pi / 180) = 0 := by
    show (0 : ℝ) * Real.pi / 180 = 0
    ring
  rw [h0, Real.cos_zero, Real.sin_zero]
  show 0 ≤ (x - (-100)) * 1 + (y - 0) * 0 ∧
      (x - (-100)) * 1 + (y - 0) * 0 ≤ (1000 : ℝ) ∧
      |(-(x - (-100))) * 0 + (y - 0) * 1| ≤ (1000 : ℝ) / 2
  refine ⟨by linarith, by linarith, ?_⟩
  have : (-(x - (-100))) * 0 + (y - 0) * 1 = y := by ring
  rw [this, abs_le]
  constructor <;> linarith

/-- Witness for C2: the theorem applied to `wBlock` and the covering path
`wPath`, with all hypotheses discharged concretely. -/
theorem generateTreeBlock_spec_witness :
    AllList (fun p : Point => inBlockBounds wBlock p.x p.y ∧
        AllList (fun path => ¬ isPointInPath p.x p.y path) ([] : List Path))
      (generateTreeBlock wBlock []) ∧
    generateTreeBlock wBlock [wPath] = [] :=
  generateTreeBlock_spec wBlock [] [wPath] wPath
    (zero_lt_one : (0 : ℝ) < 1) (List.mem_singleton.mpr rfl) wPath_covers

/-! ### C9: rounding stability -/

lemma floor_half : ⌊(1 : ℝ) / 2⌋ = 0 := by
  rw [Int.floor_eq_zero_iff]
  constructor <;> norm_num

/-- `round2` is idempotent. -/
lemma round2_round2 (v : ℝ) : round2 (round2 v) = round2 v := by
  unfold round2
  have h : ((⌊v * 100 + 1 / 2⌋ : ℝ) / 100) * 100 = (⌊v * 100 + 1 / 2⌋ : ℝ) := by
    field_simp
  rw [h]
  have h2 : (⌊v * 100 + 1 / 2⌋ : ℝ) + 1 / 2 =
      1 / 2 + ((⌊v * 100 + 1 / 2⌋ : ℤ) : ℝ) := by
    ring
  rw [h2, Int.floor_add_int, floor_half, zero_add]

/-- Shifting the input of `round2` by an integer shifts the output by the
same integer. -/
lemma round2_add_intCast (v : ℝ) (n : ℤ) : round2 (v + n) = round2 v + n := by
  unfold round2
  have h : (v + n) * 100 + 1 / 2 = (v * 100 + 1 / 2) + ((100 * n : ℤ) : ℝ) := by
    push_cast
    ring
  rw [h, Int.floor_add_int]
  field_simp
  ring

/-- A point both of whose coordinates are fixed by `round2`. -/
def roundedPoint (p : Point) : Prop := round2 p.x = p.x ∧ round2 p.y = p.y

lemma roundedPoint_mk (a b : ℝ) : roundedPoint ⟨round2 a, round2 b⟩ :=
  ⟨round2_round2 a, round2_round2 b⟩

/-- C9: every coordinate produced by `generateTreeBlock` and
`generateBorderTrees` is a fixed point of `round2`, and `round2` itself is
idempotent. -/
theorem round2_stability :
    (∀ v : ℝ, round2 (round2 v) = round2 v) ∧
    (∀ (block : TreeBlock) (paths : List Path),
      AllList roundedPoint (generateTreeBlock block paths)) ∧
    AllList roundedPoint generateBorderTrees := by
  refine ⟨round2_round2, ?_, ?_⟩
  · intro block paths
    rw [allList_iff]
    intro p hp
    rw [generateTreeBlock, List.mem_flatMap] at hp
    obtain ⟨kx, -, hp⟩ := hp
    rw [List.mem_filterMap] at hp
    obtain ⟨ky, -, hp⟩ := hp
    dsimp only at hp
    split at hp
    · cases hp
      exact roundedPoint_mk _ _
    · exact absurd hp (by simp)
  · rw [allList_iff]
    intro p hp
    rw [generateBorderTrees, List.mem_flatMap] at hp
    obtain ⟨i, -, hp⟩ := hp
    rw [layerTrees] at hp
    simp only [List.mem_append, List.mem_map, List.mem_range] at hp
    rcases hp with (⟨k, -, rfl⟩ | ⟨k, -, rfl⟩ | ⟨k, -, rfl⟩ | ⟨k, -, rfl⟩) <;>
      exact roundedPoint_mk _ _

/-! ### C8: the movement tick preserves the world bounds -/

/-- Per-axis behaviour of the clamped move: the negative-direction branch is
overwritten by the positive-direction one, both reading the previous value,
as in the source. -/
lemma clampAxis (bneg bpos : Bool) (lo hi v step : ℚ) (h1 : lo ≤ v)
    (h2 : v ≤ hi) (hstep : 0 ≤ step) :
    lo ≤ (if bpos then min hi (v + step)
          else if bneg then max lo (v - step) else v) ∧
    (if bpos then min hi (v + step)
     else if bneg then max lo (v - step) else v) ≤ hi := by
  cases bpos
  · cases bneg
    · simpa using ⟨h1, h2⟩
    · simp only [Bool.false_eq_true, if_false, if_true]
      exact ⟨le_max_left lo (v - step), max_le (le_trans h1 h2) (by linarith)⟩
  · simp only [if_true]
    exact ⟨le_min (le_trans h1 h2) (by linarith), min_le_left hi (v + step)⟩

/-- C8: one tick of `updatePosition` keeps the avatar within the clamp
bounds `550 ≤ x ≤ WORLD_WIDTH - 200` and `650 ≤ y ≤ WORLD_HEIGHT - 200`
for every subset of pressed arrow keys, and applying the clamped move at a
bound leaves the position unchanged (idempotent, not edge-triggered). -/
theorem updatePosition_spec :
    (∀ (p : AvatarPos) (k : Keys),
      550 ≤ p.x → p.x ≤ (WORLD_WIDTH : ℚ) - 200 →
      650 ≤ p.y → p.y ≤ (WORLD_HEIGHT : ℚ) - 200 →
      550 ≤ (updatePosition p k).x ∧
      (updatePosition p k).x ≤ (WORLD_WIDTH : ℚ) - 200 ∧
      650 ≤ (updatePosition p k).y ∧
      (updatePosition p k).y ≤ (WORLD_HEIGHT : ℚ) - 200) ∧
    updatePosition ⟨550, 650⟩ ⟨true, false, true, false⟩ = ⟨550, 650⟩ ∧
    updatePosition ⟨(WORLD_WIDTH : ℚ) - 200, (WORLD_HEIGHT : ℚ) - 200⟩
        ⟨false, true, false, true⟩ =
      ⟨(WORLD_WIDTH : ℚ) - 200, (WORLD_HEIGHT : ℚ) - 200⟩ := by
  refine ⟨?_, ?_, ?_⟩
  · intro p k h1 h2 h3 h4
    have hx := clampAxis k.left k.right 550 ((WORLD_WIDTH : ℚ) - 200) p.x
      SPEED h1 h2 (by norm_num [SPEED])
    have hy := clampAxis k.up k.down 650 ((WORLD_HEIGHT : ℚ) - 200) p.y
      SPEED h3 h4 (by norm_num [SPEED])
    exact ⟨hx.1, hx.2, hy.1, hy.2⟩
  · show AvatarPos.mk
        (if false then _ else if true then max 550 ((550 : ℚ) - SPEED) else _)
        (if false then _ else if true then max 650 ((650 : ℚ) - SPEED) else _) =
      ⟨550, 650⟩
    norm_num [SPEED]
  · show AvatarPos.mk
        (if true then
          min ((WORLD_WIDTH : ℚ) - 200) (((WORLD_WIDTH : ℚ) - 200) + SPEED)
        else _)
        (if true then
          min ((WORLD_HEIGHT : ℚ) - 200) (((WORLD_HEIGHT : ℚ) - 200) + SPEED)
        else _) = ⟨(WORLD_WIDTH : ℚ) - 200, (WORLD_HEIGHT : ℚ) - 200⟩
    norm_num [SPEED]

/-- Witness for C8: the bounds clause applied at the corner position
`(550, 650)` with all four keys pressed. -/
theorem updatePosition_spec_witness :
    550 ≤ (updatePosition ⟨550, 650⟩ ⟨true, true, true, true⟩).x ∧
    (updatePosition ⟨550, 650⟩ ⟨true, true, true, true⟩).x ≤
      (WORLD_WIDTH : ℚ) - 200 ∧
    650 ≤ (updatePosition ⟨550, 650⟩ ⟨true, true, true, true⟩).y ∧
    (updatePosition ⟨550, 650⟩ ⟨true, true, true, true⟩).y ≤
      (WORLD_HEIGHT : ℚ) - 200 :=
  updatePosition_spec.1 ⟨550, 650⟩ ⟨true, true, true, true⟩
    (le_refl (550 : ℚ)) (by norm_num [WORLD_WIDTH])
    (le_refl (650 : ℚ)) (by norm_num [WORLD_HEIGHT])

/-! ### Concrete signs and responses for the completion-check claims -/

def gradeA : Str → Str := fun r => 'A' :: r

def gradeB : Str → Str := fun r => 'B' :: r

def titleA : Str := ("A").data

def titleB : Str := ("B").data

def decorText : Str := ("decor").data

def taskTextA : Str := ("Task A").data

def taskTextB : Str := ("Task B").data

/-- A purely decorative sign without a grading function. -/
def decorSign : TextBox := { text := decorText, fontSize := 18, top := 0, left := 0 }

/-- A gradable sign "A". -/
def signA : TextBox :=
  { text := taskTextA, fontSize := 18, top := 0, left := 0,
    grading := some gradeA, hasInput := some true, title := some titleA }

/-- A gradable sign "B". -/
def signB : TextBox :=
  { text := taskTextB, fontSize := 18, top := 0, left := 0,
    grading := some gradeB, hasInput := some true, title := some titleB }

def respX : Str := ("x").data

def respY : Str := ("y").data

def respZ : Str := ("z").data

/-- Scenario sign list with `A` and `B` at the neutral indices 2 and 3. -/
def scenarioSigns : List TextBox := [decorSign, decorSign, signA, signB]

/-- Only `B` answered. -/
def scenarioRs1 : List SignResponse := [⟨3, respX, 0⟩]

/-- Both `A` and `B` answered. -/
def scenarioRs2 : List SignResponse := [⟨3, respX, 0⟩, ⟨2, respY, 1⟩]

def gradeAY : Str := ("Ay").data

def gradeBX : Str := ("Bx").data

/-! ### C4: the completion check -/

/-- Written from the claim's words: some required gradable non-excluded
sign (accounting for the substitutable agent pair) lacks a non-empty
trimmed response. -/
def RequiredMissing (tbs : List TextBox) (rs : List SignResponse) : Prop :=
  ∃ p ∈ textBoxesWithGrading tbs,
    p.1 ≠ beansRenameIndex ∧
    ((p.1 ∈ agentTaskIndices ∧ agentTaskCompleted rs = false) ∨
     (p.1 ∉ agentTaskIndices ∧ respOk (responseFor rs p.1) = false))

lemma missingEntry_iff (rs : List SignResponse) (p : ℕ × TextBox) :
    (if p.1 = beansRenameIndex then none
     else if p.1 ∈ agentTaskIndices then
       (if agentTaskCompleted rs then none else some p.1)
     else if respOk (responseFor rs p.1) then none else some p.1) ≠ none ↔
    (p.1 ≠ beansRenameIndex ∧
      ((p.1 ∈ agentTaskIndices ∧ agentTaskCompleted rs = false) ∨
       (p.1 ∉ agentTaskIndices ∧ respOk (responseFor rs p.1) = false))) := by
  by_cases h1 : p.1 = beansRenameIndex
  · simp [h1]
  · by_cases h2 : p.1 ∈ agentTaskIndices
    · cases h3 : agentTaskCompleted rs <;> simp [h1, h2, h3]
    · cases h4 : respOk (responseFor rs p.1) <;> simp [h1, h2, h4]

lemma missingResponses_ne_nil (tbs : List TextBox) (rs : List SignResponse) :
    missingResponses tbs rs ≠ [] ↔ RequiredMissing tbs rs := by
  rw [missingResponses, Ne, List.filterMap_eq_nil_iff, RequiredMissing]
  push_neg
  constructor
  · rintro ⟨p, hp, hne⟩
    exact ⟨p, hp, (missingEntry_iff rs p).mp hne⟩
  · rintro ⟨p, hp, hcond⟩
    exact ⟨p, hp, (missingEntry_iff rs p).mpr hcond⟩

/-- C4 (amended): the completion check fails exactly when some required
gradable non-excluded sign — skipping the guide-naming index 1 and treating
the agent pair 6/7 as substitutable — lacks a non-empty trimmed response;
for the scenario signs `A`, `B` placed at neutral indices, only `B`
answered reports exactly `A` missing (by its title), and both answered
yields the success summary with the formatted elapsed time, both stored
responses, and individual feedback for both `A` and `B` computed by their
own grading functions. -/
theorem completionCheck_spec :
    (∀ (tbs : List TextBox) (rs : List SignResponse) (t : ℕ),
      (∃ names, completionCheck tbs rs t = CompletionResult.incomplete names)
        ↔ RequiredMissing tbs rs) ∧
    (∀ t : ℕ, completionCheck scenarioSigns scenarioRs1 t =
      CompletionResult.incomplete [titleA]) ∧
    (∀ t : ℕ, completionCheck scenarioSigns scenarioRs2 t =
      CompletionResult.complete (formatTime t) [(titleA, respY), (titleB, respX)]) ∧
    gradingResults scenarioSigns scenarioRs2 = [(2, gradeAY), (3, gradeBX)] := by
  refine ⟨?_, fun t => rfl, fun t => rfl, rfl⟩
  intro tbs rs t
  rw [completionCheck]
  by_cases h : 0 < (missingResponses tbs rs).length
  · rw [if_pos h]
    constructor
    · intro _
      refine (missingResponses_ne_nil tbs rs).mp ?_
      intro hnil
      rw [hnil] at h
      simp at h
    · intro _
      exact ⟨_, rfl⟩
  · rw [if_neg h]
    constructor
    · rintro ⟨names, hn⟩
      simp at hn
    · intro hr
      have hne := (missingResponses_ne_nil tbs rs).mpr hr
      have hlen : (missingResponses tbs rs).length ≠ 0 := by
        intro h0
        exact hne (List.length_eq_zero.mp h0)
      rcases Nat.eq_zero_or_pos ((missingResponses tbs rs).length) with h0 | h0
      · exact absurd h0 hlen
      · exact absurd h0 h

/-- Counterexample to C4 as literally stated: with the two gradable signs
`A`, `B` as the whole sign list, `B` sits at the hard-coded guide-naming
index 1; with both signs answered the check succeeds, but the summary
contains only `A`'s response and the feedback list contains an entry for
index 0 only — no feedback for `B` is ever computed. -/
theorem completionCheck_counterexample :
    completionCheck [signA, signB] [⟨1, respX, 0⟩, ⟨0, respZ, 1⟩] 0 =
      CompletionResult.complete (formatTime 0) [(titleA, respZ)] ∧
    (gradingResults [signA, signB] [⟨1, respX, 0⟩, ⟨0, respZ, 1⟩]).map
      Prod.fst = [0] :=
  ⟨rfl, rfl⟩

/-! ### C5: the substitutable agent pair -/

/-- C5: when at least one agent task has a non-empty trimmed response and
every other required sign is answered, the completion check succeeds even
if the other agent task never receives a response; and whenever either
agent task is completed, neither index 6 nor index 7 is ever recorded as
missing. -/
theorem agentPair_spec :
    (∀ (tbs : List TextBox) (rs : List SignResponse) (t : ℕ),
      agentTaskCompleted rs = true →
      (∀ p ∈ textBoxesWithGrading tbs,
        p.1 ≠ beansRenameIndex → p.1 ∉ agentTaskIndices →
        respOk (responseFor rs p.1) = true) →
      completionCheck tbs rs t =
        CompletionResult.complete (formatTime t) (allResponses tbs rs) ∧
      missingResponses tbs rs = []) ∧
    (∀ (tbs : List TextBox) (rs : List SignResponse),
      agentTaskCompleted rs = true →
      6 ∉ missingResponses tbs rs ∧ 7 ∉ missingResponses tbs rs) := by
  constructor
  · intro tbs rs t hag hall
    have hmiss : missingResponses tbs rs = [] := by
      rw [missingResponses, List.filterMap_eq_nil_iff]
      intro p hp
      by_cases h1 : p.1 = beansRenameIndex
      · rw [if_pos h1]
      · rw [if_neg h1]
        by_cases h2 : p.1 ∈ agentTaskIndices
        · rw [if_pos h2, if_pos hag]
        · rw [if_neg h2, if_pos (hall p hp h1 h2)]
    refine ⟨?_, hmiss⟩
    rw [completionCheck, hmiss]
    simp
  · intro tbs rs hag
    constructor <;>
    · intro hmem
      rw [missingResponses, List.mem_filterMap] at hmem
      obtain ⟨p, hp, hfp⟩ := hmem
      by_cases h1 : p.1 = beansRenameIndex
      · rw [if_pos h1] at hfp
        simp at hfp
      · rw [if_neg h1] at hfp
        by_cases h2 : p.1 ∈ agentTaskIndices
        · rw [if_pos h2, if_pos hag] at hfp
          simp at hfp
        · rw [if_neg h2] at hfp
          by_cases h3 : respOk (responseFor rs p.1) = true
          · rw [if_pos h3] at hfp
            simp at hfp
          · rw [if_neg h3] at hfp
            have hp1 := Option.some.inj hfp
            apply h2
            rw [hp1]
            decide

/-- Sign list with the gradable pair at the agent indices 6 and 7. -/
def agentSigns : List TextBox :=
  [decorSign, decorSign, decorSign, decorSign, decorSign, decorSign,
    signA, signB]

/-- Only the first agent task answered. -/
def agentRs : List SignResponse := [⟨6, respX, 0⟩]

/-- Witness for C5: the success clause applied with only agent task 6
answered and no other gradable sign present. -/
theorem agentPair_spec_witness :
    completionCheck agentSigns agentRs 0 =
      CompletionResult.complete (formatTime 0) (allResponses agentSigns agentRs) ∧
    missingResponses agentSigns agentRs = [] :=
  agentPair_spec.1 agentSigns agentRs 0 rfl (by decide)

/-! ### C6: the guide-naming sign never affects completion -/

lemma find?_filter_of_imp {α : Type _} (p q : α → Bool) (l : List α)
    (h : ∀ a, p a = true → q a = true) :
    (l.filter q).find? p = l.find? p := by
  induction l with
  | nil => rfl
  | cons a l ih =>
    by_cases hq : q a = true
    · rw [List.filter_cons_of_pos hq]
      by_cases hp : p a = true
      · rw [List.find?_cons_of_pos _ hp, List.find?_cons_of_pos _ hp]
      · rw [List.find?_cons_of_neg _ hp, List.find?_cons_of_neg _ hp, ih]
    · have hp : ¬ p a = true := fun hpa => hq (h a hpa)
      rw [List.filter_cons_of_neg hq, ih, List.find?_cons_of_neg _ hp]

lemma responseFor_agree {rs1 rs2 : List SignResponse}
    (h : rs1.filter (fun r => r.index != beansRenameIndex) =
      rs2.filter (fun r => r.index != beansRenameIndex))
    {i : ℕ} (hi : i ≠ beansRenameIndex) :
    responseFor rs1 i = responseFor rs2 i := by
  have himp : ∀ r : SignResponse, (r.index == i) = true →
      (r.index != beansRenameIndex) = true := by
    intro r hr
    have hri : r.index = i := by simpa using hr
    simp only [bne_iff_ne, Ne]
    rw [hri]
    exact hi
  rw [responseFor, responseFor, ← find?_filter_of_imp _ _ rs1 himp, h,
    find?_filter_of_imp _ _ rs2 himp]

lemma agentTaskCompleted_agree {rs1 rs2 : List SignResponse}
    (h : rs1.filter (fun r => r.index != beansRenameIndex) =
      rs2.filter (fun r => r.index != beansRenameIndex)) :
    agentTaskCompleted rs1 = agentTaskCompleted rs2 := by
  rw [agentTaskCompleted, agentTaskCompleted, agentTaskIndices]
  simp only [List.any_cons, List.any_nil]
  rw [responseFor_agree h (by decide : (6 : ℕ) ≠ beansRenameIndex),
    responseFor_agree h (by decide : (7 : ℕ) ≠ beansRenameIndex)]

lemma missingResponses_agree (tbs : List TextBox)
    {rs1 rs2 : List SignResponse}
    (h : rs1.filter (fun r => r.index != beansRenameIndex) =
      rs2.filter (fun r => r.index != beansRenameIndex)) :
    missingResponses tbs rs1 = missingResponses tbs rs2 := by
  rw [missingResponses, missingResponses]
  apply List.filterMap_congr
  intro p hp
  by_cases h1 : p.1 = beansRenameIndex
  · simp [h1]
  · by_cases h2 : p.1 ∈ agentTaskIndices
    · simp [h1, h2, agentTaskCompleted_agree h]
    · simp [h1, h2, responseFor_agree h h1]

lemma gradingResults_agree (tbs : List TextBox)
    {rs1 rs2 : List SignResponse}
    (h : rs1.filter (fun r => r.index != beansRenameIndex) =
      rs2.filter (fun r => r.index != beansRenameIndex)) :
    gradingResults tbs rs1 = gradingResults tbs rs2 := by
  rw [gradingResults, gradingResults]
  apply List.filterMap_congr
  intro p hp
  by_cases h1 : p.1 = beansRenameIndex
  · simp [h1]
  · by_cases h2 : p.1 ∈ agentTaskIndices
    · simp [h1, h2]
    · simp [h1, h2, responseFor_agree h h1]

lemma allResponses_agree (tbs : List TextBox)
    {rs1 rs2 : List SignResponse}
    (h : rs1.filter (fun r => r.index != beansRenameIndex) =
      rs2.filter (fun r => r.index != beansRenameIndex)) :
    allResponses tbs rs1 = allResponses tbs rs2 := by
  rw [allResponses, allResponses]
  apply List.filterMap_congr
  intro p hp
  by_cases h1 : p.1 = beansRenameIndex
  · simp [h1]
  · by_cases h2 : p.1 ∈ agentTaskIndices
    · simp [h1, h2, responseFor_agree h h1]
    · simp [h1, h2, responseFor_agree h h1]

/-- C6: two response lists that agree outside the guide-naming index 1
produce the same completion outcome — the same success/failure, the same
missing lists, and the same grading feedback. -/
theorem beansRename_noninterference :
    ∀ (tbs : List TextBox) (rs1 rs2 : List SignResponse) (t : ℕ),
      rs1.filter (fun r => r.index != beansRenameIndex) =
        rs2.filter (fun r => r.index != beansRenameIndex) →
      completionCheck tbs rs1 t = completionCheck tbs rs2 t ∧
      missingResponses tbs rs1 = missingResponses tbs rs2 ∧
      gradingResults tbs rs1 = gradingResults tbs rs2 := by
  intro tbs rs1 rs2 t h
  have hmiss := missingResponses_agree tbs h
  refine ⟨?_, hmiss, gradingResults_agree tbs h⟩
  rw [completionCheck, completionCheck, hmiss, allResponses_agree tbs h]
  rw [missingTaskNames, missingTaskNames, hmiss]

/-- Witness for C6: a store holding only a guide-naming response is
indistinguishable, for the completion check, from the empty store. -/
theorem beansRename_noninterference_witness :
    completionCheck scenarioSigns [⟨1, respX, 0⟩] 0 =
      completionCheck scenarioSigns [] 0 ∧
    missingResponses scenarioSigns [⟨1, respX, 0⟩] =
      missingResponses scenarioSigns [] ∧
    gradingResults scenarioSigns [⟨1, respX, 0⟩] =
      gradingResults scenarioSigns [] :=
  beansRename_noninterference scenarioSigns [⟨1, respX, 0⟩] [] 0 rfl

/-! ### C10: stored responses are already trimmed -/

/-- C10: every record in any reachable response store has a response text
equal to its own trimmed form, so testing "non-empty trimmed response" on a
stored record is the same as testing non-emptiness. -/
theorem storedResponses_trimmed :
    ∀ rs : List SignResponse, ReachableStore rs →
      AllList (fun r : SignResponse => jsTrim r.response = r.response ∧
        (0 < (jsTrim r.response).length ↔ r.response ≠ [])) rs := by
  intro rs h
  induction h with
  | init => exact trivial
  | submit prev idx cur ts hprev ih =>
    rw [submitResponse, allList_iff]
    rw [allList_iff] at ih
    intro r hr
    rw [List.mem_append] at hr
    rcases hr with hr | hr
    · exact ih r hr
    · rw [List.mem_singleton] at hr
      subst hr
      refine ⟨jsTrim_idem cur, ?_⟩
      show 0 < (jsTrim (jsTrim cur)).length ↔ jsTrim cur ≠ []
      rw [jsTrim_idem cur]
      exact List.length_pos

def rawResp : Str := (" x ").data

/-- Witness for C10: the invariant evaluated on the store reached by one
submission of an untrimmed input. -/
theorem storedResponses_trimmed_witness :
    AllList (fun r : SignResponse => jsTrim r.response = r.response ∧
      (0 < (jsTrim r.response).length ↔ r.response ≠ []))
      (submitResponse [] 0 rawResp 0) :=
  storedResponses_trimmed _
    (ReachableStore.submit [] 0 rawResp 0 ReachableStore.init)

/-! ### C3: the border rows -/

lemma layerTrees_length (i : ℕ) : (layerTrees i).length = layerStride := by
  rw [layerTrees]
  simp [horizCount, vertCount, layerStride]

lemma flatMap_layerTrees_getElem :
    ∀ (l : List ℕ) (i p v : ℕ), l[i]? = some v → p < layerStride →
      (l.flatMap layerTrees)[layerStride * i + p]? = (layerTrees v)[p]? := by
  intro l
  induction l with
  | nil =>
    intro i p v hv _
    simp at hv
  | cons a l ih =>
    intro i p v hv hp
    cases i with
    | zero =>
      have hav : a = v := by simpa using hv
      subst hav
      rw [List.flatMap_cons, List.getElem?_append]
      have hidx : layerStride * 0 + p = p := by omega
      rw [hidx, if_pos (by rw [layerTrees_length]; exact hp)]
    | succ j =>
      have hlj : l[j]? = some v := by simpa using hv
      rw [List.flatMap_cons, List.getElem?_append]
      have hidx : layerStride * (j + 1) + p =
          (layerTrees a).length + (layerStride * j + p) := by
        rw [layerTrees_length, Nat.mul_succ]
        omega
      rw [hidx, if_neg (by omega), Nat.add_sub_cancel_left]
      exact ih j p v hlj hp

lemma generateBorderTrees_getElem (i p : ℕ) (hi : i < layerCount)
    (hp : p < layerStride) :
    generateBorderTrees[layerStride * i + p]? = (layerTrees i)[p]? := by
  rw [generateBorderTrees]
  exact flatMap_layerTrees_getElem (List.range layerCount) i p i
    (List.getElem?_range hi) hp

lemma layerTrees_top (i k : ℕ) (hk : k < horizCount) :
    (layerTrees i)[k]? =
      some (topPoint (TREE_SPACING / 2 * (i : ℝ)) (layerStride * i) k) := by
  rw [layerTrees, List.getElem?_append,
    if_pos (by simpa [horizCount] using hk), List.getElem?_map,
    List.getElem?_range hk, Option.map_some']

lemma layerTrees_bottom (i k : ℕ) (hk : k < horizCount) :
    (layerTrees i)[horizCount + k]? =
      some (bottomPoint (TREE_SPACING / 2 * (i : ℝ))
        (layerStride * i + horizCount) k) := by
  have h19 : horizCount = 19 := rfl
  rw [layerTrees, List.getElem?_append, if_neg (by simp [horizCount])]
  simp only [List.length_map, List.length_range]
  rw [Nat.add_sub_cancel_left, List.getElem?_append,
    if_pos (by simpa [horizCount] using hk), List.getElem?_map,
    List.getElem?_range hk, Option.map_some']

lemma layerTrees_left (i k : ℕ) (hk : k < vertCount) :
    (layerTrees i)[2 * horizCount + k]? =
      some (leftPoint (TREE_SPACING / 2 * (i : ℝ))
        (layerStride * i + 2 * horizCount) k) := by
  have h19 : horizCount = 19 := rfl
  rw [layerTrees, List.getElem?_append, if_neg (by simp [horizCount]; omega)]
  simp only [List.length_map, List.length_range]
  have e1 : 2 * horizCount + k - horizCount = horizCount + k := by omega
  rw [e1, List.getElem?_append, if_neg (by simp [horizCount])]
  simp only [List.length_map, List.length_range]
  rw [Nat.add_sub_cancel_left, List.getElem?_append,
    if_pos (by simpa [vertCount] using hk), List.getElem?_map,
    List.getElem?_range hk, Option.map_some']

lemma layerTrees_right (i k : ℕ) (hk : k < vertCount) :
    (layerTrees i)[2 * horizCount + vertCount + k]? =
      some (rightPoint (TREE_SPACING / 2 * (i : ℝ))
        (layerStride * i + 2 * horizCount + vertCount) k) := by
  have h19 : horizCount = 19 := rfl
  have h20 : vertCount = 20 := rfl
  rw [layerTrees, List.getElem?_append, if_neg (by simp [horizCount]; omega)]
  simp only [List.length_map, List.length_range]
  have e1 : 2 * horizCount + vertCount + k - horizCount =
      horizCount + (vertCount + k) := by omega
  rw [e1, List.getElem?_append, if_neg (by simp [horizCount])]
  simp only [List.length_map, List.length_range]
  rw [Nat.add_sub_cancel_left, List.getElem?_append,
    if_neg (by simp [vertCount])]
  simp only [List.length_map, List.length_range]
  rw [Nat.add_sub_cancel_left, List.getElem?_map,
    List.getElem?_range hk, Option.map_some']

/-- C3 (amended): in every layer `i` the four border rows are regular 1-D
grids along the world edges, with top nominal `y = -layer`, left nominal
`x = -layer` and right nominal `x = WORLD_WIDTH + layer` — but the bottom
row's nominal `y` is `WORLD_HEIGHT + layer - BOTTOM_RAISE` (raised by 200),
not `WORLD_HEIGHT + layer`.  The positional equations locate each row
inside `generateBorderTrees`; the coordinate equations expose the nominal
value before jitter and rounding. -/
theorem borderRows_spec :
    ∀ i k k' : ℕ, i < layerCount → k < horizCount → k' < vertCount →
      (generateBorderTrees[layerStride * i + k]? =
        some (topPoint (TREE_SPACING / 2 * (i : ℝ)) (layerStride * i) k) ∧
       (topPoint (TREE_SPACING / 2 * (i : ℝ)) (layerStride * i) k).y =
         round2 (-(TREE_SPACING / 2 * (i : ℝ)) +
           rand (RANDOM_OFFSET / 2)
             (borderSeed + ((layerStride * i + k : ℕ) : ℝ) * 19 + 5000))) ∧
      (generateBorderTrees[layerStride * i + horizCount + k]? =
        some (bottomPoint (TREE_SPACING / 2 * (i : ℝ))
          (layerStride * i + horizCount) k) ∧
       (bottomPoint (TREE_SPACING / 2 * (i : ℝ))
          (layerStride * i + horizCount) k).y =
         round2 ((WORLD_HEIGHT : ℝ) + TREE_SPACING / 2 * (i : ℝ) -
           BOTTOM_RAISE + rand (RANDOM_OFFSET / 2)
             (borderSeed +
               ((layerStride * i + horizCount + k : ℕ) : ℝ) * 19 + 5000))) ∧
      (generateBorderTrees[layerStride * i + 2 * horizCount + k']? =
        some (leftPoint (TREE_SPACING / 2 * (i : ℝ))
          (layerStride * i + 2 * horizCount) k') ∧
       (leftPoint (TREE_SPACING / 2 * (i : ℝ))
          (layerStride * i + 2 * horizCount) k').x =
         round2 (-(TREE_SPACING / 2 * (i : ℝ)) +
           rand (RANDOM_OFFSET / 2)
             (borderSeed +
               ((layerStride * i + 2 * horizCount + k' : ℕ) : ℝ) * 17))) ∧
      (generateBorderTrees[layerStride * i + 2 * horizCount + vertCount + k']? =
        some (rightPoint (TREE_SPACING / 2 * (i : ℝ))
          (layerStride * i + 2 * horizCount + vertCount) k') ∧
       (rightPoint (TREE_SPACING / 2 * (i : ℝ))
          (layerStride * i + 2 * horizCount + vertCount) k').x =
         round2 ((WORLD_WIDTH : ℝ) + TREE_SPACING / 2 * (i : ℝ) +
           rand (RANDOM_OFFSET / 2)
             (borderSeed +
               ((layerStride * i + 2 * horizCount + vertCount + k' : ℕ) : ℝ) *
                 17))) := by
  intro i k k' hi hk hk'
  have h19 : horizCount = 19 := rfl
  have h20 : vertCount = 20 := rfl
  have h78 : layerStride = 78 := rfl
  refine ⟨⟨?_, rfl⟩, ⟨?_, rfl⟩, ⟨?_, rfl⟩, ⟨?_, rfl⟩⟩
  · rw [generateBorderTrees_getElem i k hi (by omega), layerTrees_top i k hk]
  · have e : layerStride * i + horizCount + k =
        layerStride * i + (horizCount + k) := by omega
    rw [e, generateBorderTrees_getElem i (horizCount + k) hi (by omega),
      layerTrees_bottom i k hk]
  · have e : layerStride * i + 2 * horizCount + k' =
        layerStride * i + (2 * horizCount + k') := by omega
    rw [e, generateBorderTrees_getElem i (2 * horizCount + k') hi (by omega),
      layerTrees_left i k' hk']
  · have e : layerStride * i + 2 * horizCount + vertCount + k' =
        layerStride * i + (2 * horizCount + vertCount + k') := by omega
    rw [e,
      generateBorderTrees_getElem i (2 * horizCount + vertCount + k') hi
        (by omega),
      layerTrees_right i k' hk']

/-- Witness for C3 (amended): the theorem applied at layer 0 and row
positions 0. -/
theorem borderRows_spec_witness :
    (generateBorderTrees[layerStride * 0 + 0]? =
      some (topPoint (TREE_SPACING / 2 * ((0 : ℕ) : ℝ)) (layerStride * 0) 0) ∧
     (topPoint (TREE_SPACING / 2 * ((0 : ℕ) : ℝ)) (layerStride * 0) 0).y =
       round2 (-(TREE_SPACING / 2 * ((0 : ℕ) : ℝ)) +
         rand (RANDOM_OFFSET / 2)
           (borderSeed + ((layerStride * 0 + 0 : ℕ) : ℝ) * 19 + 5000))) ∧
    (generateBorderTrees[layerStride * 0 + horizCount + 0]? =
      some (bottomPoint (TREE_SPACING / 2 * ((0 : ℕ) : ℝ))
        (layerStride * 0 + horizCount) 0) ∧
     (bottomPoint (TREE_SPACING / 2 * ((0 : ℕ) : ℝ))
        (layerStride * 0 + horizCount) 0).y =
       round2 ((WORLD_HEIGHT : ℝ) + TREE_SPACING / 2 * ((0 : ℕ) : ℝ) -
         BOTTOM_RAISE + rand (RANDOM_OFFSET / 2)
           (borderSeed +
             ((layerStride * 0 + horizCount + 0 : ℕ) : ℝ) * 19 + 5000))) ∧
    (generateBorderTrees[layerStride * 0 + 2 * horizCount + 0]? =
      some (leftPoint (TREE_SPACING / 2 * ((0 : ℕ) : ℝ))
        (layerStride * 0 + 2 * horizCount) 0) ∧
     (leftPoint (TREE_SPACING / 2 * ((0 : ℕ) : ℝ))
        (layerStride * 0 + 2 * horizCount) 0).x =
       round2 (-(TREE_SPACING / 2 * ((0 : ℕ) : ℝ)) +
         rand (RANDOM_OFFSET / 2)
           (borderSeed +
             ((layerStride * 0 + 2 * horizCount + 0 : ℕ) : ℝ) * 17))) ∧
    (generateBorderTrees[layerStride * 0 + 2 * horizCount + vertCount + 0]? =
      some (rightPoint (TREE_SPACING / 2 * ((0 : ℕ) : ℝ))
        (layerStride * 0 + 2 * horizCount + vertCount) 0) ∧
     (rightPoint (TREE_SPACING / 2 * ((0 : ℕ) : ℝ))
        (layerStride * 0 + 2 * horizCount + vertCount) 0).x =
       round2 ((WORLD_WIDTH : ℝ) + TREE_SPACING / 2 * ((0 : ℕ) : ℝ) +
         rand (RANDOM_OFFSET / 2)
           (borderSeed +
             ((layerStride * 0 + 2 * horizCount + vertCount + 0 : ℕ) : ℝ) *
               17))) :=
  borderRows_spec 0 0 0 (by decide) (by decide) (by decide)

/-- Counterexample to C3 as literally stated: the first bottom-border point
(position 19 of `generateBorderTrees`, layer 0) does not have nominal
`y = WORLD_HEIGHT + layer`: its `y` is `round2` of a value exactly
`BOTTOM_RAISE = 200` below the claimed one. -/
theorem borderRows_counterexample :
    (generateBorderTrees[19]?).map Point.y ≠
      some (round2 ((WORLD_HEIGHT : ℝ) + TREE_SPACING / 2 * ((0 : ℕ) : ℝ) +
        rand (RANDOM_OFFSET / 2)
          (borderSeed + ((19 : ℕ) : ℝ) * 19 + 5000))) := by
  have hget : generateBorderTrees[19]? =
      some (bottomPoint (TREE_SPACING / 2 * ((0 : ℕ) : ℝ))
        (layerStride * 0 + horizCount) 0) := by
    have e : (19 : ℕ) = layerStride * 0 + (horizCount + 0) := by
      have h78 : layerStride = 78 := rfl
      have h19 : horizCount = 19 := rfl
      omega
    rw [e, generateBorderTrees_getElem 0 (horizCount + 0) (by decide) (by decide)]
    exact layerTrees_bottom 0 0 (by decide)
  rw [hget]
  have hy : (bottomPoint (TREE_SPACING / 2 * ((0 : ℕ) : ℝ))
      (layerStride * 0 + horizCount) 0).y =
      round2 ((WORLD_HEIGHT : ℝ) + TREE_SPACING / 2 * ((0 : ℕ) : ℝ) -
        BOTTOM_RAISE + rand (RANDOM_OFFSET / 2)
          (borderSeed + ((19 : ℕ) : ℝ) * 19 + 5000)) := rfl
  intro h
  rw [Option.map_some'] at h
  have h2 := Option.some.inj h
  rw [hy] at h2
  have e2 : (WORLD_HEIGHT : ℝ) + TREE_SPACING / 2 * ((0 : ℕ) : ℝ) +
      rand (RANDOM_OFFSET / 2)
        (borderSeed + ((19 : ℕ) : ℝ) * 19 + 5000) =
      ((WORLD_HEIGHT : ℝ) + TREE_SPACING / 2 * ((0 : ℕ) : ℝ) - BOTTOM_RAISE +
        rand (RANDOM_OFFSET / 2)
          (borderSeed + ((19 : ℕ) : ℝ) * 19 + 5000)) + ((200 : ℤ) : ℝ) := by
    rw [BOTTOM_RAISE]
    push_cast
    ring
  rw [e2, round2_add_intCast] at h2
  have : ((200 : ℤ) : ℝ) = 200 := by push_cast; ring
  rw [this] at h2
  linarith

end Forest
